/-
Verification of the agreements application (mellyn).

Each Django model row is embedded as a Lean structure, querysets as lists of
rows, and the view / signal functions as pure Lean functions over an explicit
database state.  Timestamps are integers (a fixed evaluation time `t` stands
for `django.utils.timezone.now()`).
-/

import Mathlib

namespace Mellyn

/-! ## Data model (agreements/models.py) -/

/-- A row of the `Resource` model (models.py lines 25-58).  Its concrete
fields are `name`, `slug`, `description`, `low_codes_threshold` and
`low_codes_email`; `id` is the implicit primary key.  Note that the model
defines *no* `hidden` field. -/
structure Resource where
  id : Nat
  name : String
  slug : String
  description : String
  low_codes_threshold : Nat
  low_codes_email : String
  deriving Repr, DecidableEq

/-- A row of the `Agreement` model (models.py lines 146-205): `created` is the
auto-set creation date, `start`/`end` bound the validity window (`end` is
nullable), `hidden` hides the agreement.  `resource` is the foreign key (id)
of the protected Resource.  The nullable column `end` is called `end_` because
`end` is a Lean keyword. -/
structure Agreement where
  id : Nat
  resource : Nat
  created : Int
  start : Int
  end_ : Option Int
  hidden : Bool
  deriving Repr, DecidableEq

/-- A row of the `Signature` model (models.py lines 225-246): who
(`signatory`) signed which `agreement`.  The remaining columns (username,
names, email, department, signed_at) play no role in the verified claims. -/
structure Signature where
  id : Nat
  agreement : Nat
  signatory : Nat
  deriving Repr, DecidableEq

/-- A row of the `LicenseCode` model (models.py lines 249-261): a `code`
string scoped to a `resource`, with the auto-set `added` timestamp and the
nullable one-to-one `signature` foreign key. -/
structure LicenseCode where
  id : Nat
  resource : Nat
  code : String
  added : Int
  signature : Option Nat
  deriving Repr, DecidableEq

/-! ## Agreement validity (models.py lines 108-116 and 197-205) -/

/-- `Agreement.valid()` (models.py lines 197-205), at evaluation time `t`:

    if not self.hidden:
        if now() >= self.start:
            if self.end is None:
                return True
            if now() <= self.end:
                return True
    return False
-/
def Agreement.valid (t : Int) (a : Agreement) : Bool :=
  if !a.hidden then
    if t ≥ a.start then
      match a.end_ with
      | none => true
      | some e => if t ≤ e then true else false
    else false
  else false

/-- `AgreementQuerySet.valid()` (models.py lines 108-116), at evaluation time
`t`, applied to a queryset given as a list of rows:

    self.filter(start__lte=now())
        .filter(Q(end__gte=now()) | Q(end__isnull=True))
        .exclude(hidden=True)
-/
def AgreementQuerySet.valid (t : Int) (qs : List Agreement) : List Agreement :=
  ((qs.filter (fun a => a.start ≤ t)).filter
      (fun a => match a.end_ with
        | some e => e ≥ t
        | none => true)).filter
    (fun a => !(a.hidden == true))

/-! ## Signing an agreement (views.py, AgreementRead.form_valid, lines 543-568) -/

/-- The database state touched by the signing flow: the `Signature` table and
the `LicenseCode` table. -/
structure SignDB where
  signatures : List Signature
  codes : List LicenseCode
  deriving Repr, DecidableEq

/-- `ORDER BY added LIMIT 1` over a list of license-code rows: the first row
holding the minimal `added` timestamp, or `none` on the empty list. -/
def oldestCode : List LicenseCode → Option LicenseCode
  | [] => none
  | c :: rest =>
    match oldestCode rest with
    | none => some c
    | some b => if b.added < c.added then some b else some c

/-- The query of views.py lines 558-561:
`LicenseCode.objects.select_for_update(skip_locked=True)
 .filter(signature=None, resource=...).order_by('added').first()`. -/
def selectOldestUnassigned (codes : List LicenseCode) (resId : Nat) :
    Option LicenseCode :=
  oldestCode (codes.filter (fun c => c.signature.isNone && c.resource == resId))

/-- `license_code.signature = signature; license_code.save()` (views.py lines
563-564): the UPDATE writes the row whose primary key matches. -/
def assignCode (codes : List LicenseCode) (codeId sigId : Nat) :
    List LicenseCode :=
  codes.map (fun c => if c.id == codeId then { c with signature := some sigId } else c)

/-- Does a `Signature` row for `(agreement, signatory)` already exist?  This is
the unique check run by `signature.full_clean()` against the
`UniqueConstraint(fields=['agreement', 'signatory'])` of `Signature.Meta`
(models.py lines 243-246); the remaining field validators concern data copied
from the authenticated user's record and do not affect the claims. -/
def hasSignature (db : SignDB) (agreementId userId : Nat) : Bool :=
  db.signatures.any (fun s => s.agreement == agreementId && s.signatory == userId)

/-- Outcome of `AgreementRead.form_valid`. -/
inductive SignOutcome where
  /-- `full_clean` raised `ValidationError`; the view flashes "Agreement
  already signed." and redirects. -/
  | alreadySigned
  /-- The signature was saved; the atomic code-claiming block committed,
  attaching the license code with the given id (or none were available). -/
  | signed (codeId : Option Nat)
  /-- The signature was saved, but the atomic code-claiming block aborted and
  was rolled back. -/
  | claimAborted
  deriving Repr, DecidableEq

/-- `AgreementRead.form_valid` (views.py lines 543-568) over the database
state.  `agreementId`/`resourceId` are `self.get_object()` and its resource,
`userId` is `self.request.user`, `newSigId` the primary key the INSERT
allocates.  `claimStepAborts` models the fate of the `transaction.atomic()`
block of lines 557-564: when it aborts, only the writes inside the block are
rolled back — `signature.save()` (line 556) sits before the block. -/
def AgreementRead.form_valid (db : SignDB) (agreementId resourceId userId newSigId : Nat)
    (claimStepAborts : Bool) : SignDB × SignOutcome :=
  if hasSignature db agreementId userId then
    (db, .alreadySigned)
  else
    let db1 : SignDB :=
      { db with signatures := db.signatures ++ [⟨newSigId, agreementId, userId⟩] }
    if claimStepAborts then
      (db1, .claimAborted)
    else
      match selectOldestUnassigned db1.codes resourceId with
      | none => (db1, .signed none)
      | some c => ({ db1 with codes := assignCode db1.codes c.id newSigId },
                   .signed (some c.id))

/-! ## Bulk replacement of license codes
(views.py, ResourceLicenseCodeUpdate.form_valid, lines 386-398) -/

/-- The delete set of views.py lines 388-391:
`LicenseCode.objects.filter(resource=..., signature__isnull=True)` with
`.exclude(code=code)` applied for every submitted code. -/
def codeToDelete (resourceId : Nat) (submitted : List String) (c : LicenseCode) :
    Bool :=
  c.resource == resourceId && c.signature.isNone && !(submitted.contains c.code)

/-- `ResourceLicenseCodeUpdate.form_valid` (views.py lines 386-398): delete
every unassigned code of the resource that is absent from the submitted list;
returns the new state and the number of rows deleted. -/
def ResourceLicenseCodeUpdate.form_valid (db : SignDB) (resourceId : Nat)
    (submitted : List String) : SignDB × Nat :=
  ({ db with codes := db.codes.filter (fun c => !(codeToDelete resourceId submitted c)) },
   (db.codes.filter (codeToDelete resourceId submitted)).length)

/-! ## Low-stock warning signal (agreements/signals.py, lines 13-37) -/

/-- `warn_low_number_unassigned_licensecodes` (signals.py lines 13-37), fired
on `post_save` of a LicenseCode whose resource is `resource`; returns whether
`send_mail` is called (it is called at most once per invocation):

    if resource.low_codes_email == '': return
    num_rem = LicenseCode.objects.filter(resource=resource,
                                         signature__isnull=True).count()
    if num_rem > resource.low_codes_threshold: return
    if (num_rem % 10) != 0: return
    send_mail(...)
-/
def warn_low_number_unassigned_licensecodes (codes : List LicenseCode)
    (resource : Resource) : Bool :=
  if resource.low_codes_email == "" then false
  else
    let num_rem :=
      (codes.filter (fun c => c.resource == resource.id && c.signature.isNone)).length
    if num_rem > resource.low_codes_threshold then false
    else if num_rem % 10 != 0 then false
    else true

/-! ## File access (views.py, ResourceAccess.get, lines 223-270) -/

/-- Does the string contain the substring `".."` (two consecutive dots)?
This is Python's `'..' in resource_scoped_path` (views.py line 253). -/
def hasDotDot (s : String) : Bool :=
  hasDotDotChars s.toList
where
  /-- Scan a character list for two consecutive dots. -/
  hasDotDotChars : List Char → Bool
    | [] => false
    | c :: rest =>
      match c, rest with
      | '.', '.' :: _ => true
      | _, _ => hasDotDotChars rest

/-- Does the string start with `/` (Python `os.path.isabs` on POSIX)? -/
def startsWithSlash (s : String) : Bool :=
  match s.toList with
  | '/' :: _ => true
  | _ => false

/-- Is the last character of the string a `/` (Python `s[-1] == '/'`, on a
non-empty string)? -/
def lastCharIsSlash (s : String) : Bool :=
  match s.toList.getLast? with
  | some '/' => true
  | _ => false

/-- `os.path.join(a, b)` for one base and one component: an absolute second
component discards the first; otherwise the two are joined with a single
separator (slugs are slug-field values, so the base never ends in `/`). -/
def osPathJoin (a b : String) : String :=
  if startsWithSlash b then b
  else if a == "" then b
  else a ++ "/" ++ b

/-- `default_storage.path(name)` (a `FileSystemStorage` rooted at
`MEDIA_ROOT`): `safe_join` raises `SuspiciousFileOperation` when the joined
path escapes the storage root, which for a slug-rooted name happens exactly
when the name is absolute; otherwise it returns the name rooted at
`MEDIA_ROOT`. -/
def default_storage_path (name : String) : Except Unit String :=
  if startsWithSlash name then .error ()
  else .ok ("/media/" ++ name)

/-- The response of `ResourceAccess.get`. -/
inductive AccessResponse where
  /-- `raise Http404(msg)`. -/
  | http404 (msg : String)
  /-- `redirect(associated_agreement)` after the "You must sign this
  agreement..." message (views.py lines 243-248). -/
  | redirectToAgreement (agreementId : Nat)
  /-- `raise PermissionDenied(...)` from the `SuspiciousFileOperation`
  handler (views.py lines 263-264). -/
  | permissionDenied
  /-- `sendfile(request, self.path)` (views.py line 262). -/
  | serveFile (path : String)
  /-- Redirect adding a trailing slash (views.py lines 267-268). -/
  | redirectWithSlash (accesspath : String)
  /-- Fall through to rendering the directory listing. -/
  | renderListing
  deriving Repr, DecidableEq

/-- Result of `ResourceAccess.get` together with whether the
`FileDownloadEvent` recorder (`get_or_create_if_no_duplicates_past_5_minutes`,
views.py lines 259-261) was invoked for the request. -/
structure AccessOutcome where
  response : AccessResponse
  eventRecorded : Bool
  deriving Repr, DecidableEq

/-- The query of views.py lines 232-236:
`Agreement.objects.filter(resource=resource).valid()
 .order_by('-created').first()` — the most recently created row among the
currently valid agreements of the resource. -/
def selectAssociatedAgreement (t : Int) (agreements : List Agreement)
    (resId : Nat) : Option Agreement :=
  newestFirst (AgreementQuerySet.valid t (agreements.filter (fun a => a.resource == resId)))
where
  /-- `ORDER BY created DESC LIMIT 1`. -/
  newestFirst : List Agreement → Option Agreement
    | [] => none
    | a :: rest =>
      match newestFirst rest with
      | none => some a
      | some b => if b.created > a.created then some b else some a

/-- `ResourceAccess.get` (views.py lines 229-270) at evaluation time `t`.
`fs` models the file system under `default_storage`: `none` means the path
does not exist, `some true` a file, `some false` a directory.  The view runs
behind `LoginRequiredMixin`, so `userId` is an authenticated user. -/
def ResourceAccess.get (t : Int) (agreements : List Agreement)
    (signatures : List Signature) (fs : String → Option Bool)
    (resource : Resource) (userId : Nat) (accesspath : String) : AccessOutcome :=
  match selectAssociatedAgreement t agreements resource.id with
  | none => ⟨.http404 "Unable to find valid and unhidden agreement.", false⟩
  | some ag =>
    if !(signatures.any (fun s => s.agreement == ag.id && s.signatory == userId)) then
      ⟨.redirectToAgreement ag.id, false⟩
    else
      let resource_scoped_path := osPathJoin resource.slug accesspath
      if hasDotDot resource_scoped_path then
        ⟨.permissionDenied, false⟩
      else
        match default_storage_path resource_scoped_path with
        | .error _ => ⟨.permissionDenied, false⟩
        | .ok p =>
          match fs p with
          | none => ⟨.http404 "File or directory not found at access path.", false⟩
          | some true => ⟨.serveFile p, true⟩
          | some false =>
            if accesspath != "" && !(lastCharIsSlash accesspath) then
              ⟨.redirectWithSlash (accesspath ++ "/"), false⟩
            else
              ⟨.renderListing, false⟩

/-- The claim's access criterion: the user holds a signature on *some*
currently valid agreement of the resource. -/
def signedSomeValidAgreement (t : Int) (agreements : List Agreement)
    (signatures : List Signature) (resId userId : Nat) : Bool :=
  agreements.any (fun a =>
    a.resource == resId && Agreement.valid t a &&
    signatures.any (fun s => s.agreement == a.id && s.signatory == userId))

/-! ## Resource list view (views.py, ResourceList.get_queryset, lines 87-91) -/

/-- A Python attribute value. -/
inductive PyValue where
  | str (s : String)
  | int (n : Nat)
  | bool (b : Bool)
  deriving Repr, DecidableEq

/-- Python truthiness of an attribute value. -/
def pyTruthy : PyValue → Bool
  | .str s => s != ""
  | .int n => n != 0
  | .bool b => b

/-- Attribute lookup on a `Resource` instance.  The model (models.py lines
25-58) defines `name`, `slug`, `description`, `low_codes_threshold` and
`low_codes_email` (plus the implicit `id`); any other attribute — in
particular `hidden`, which the model does *not* define — raises
`AttributeError`. -/
def Resource.getattr (r : Resource) : String → Except String PyValue
  | "id" => .ok (.int r.id)
  | "name" => .ok (.str r.name)
  | "slug" => .ok (.str r.slug)
  | "description" => .ok (.str r.description)
  | "low_codes_threshold" => .ok (.int r.low_codes_threshold)
  | "low_codes_email" => .ok (.str r.low_codes_email)
  | a => .error ("AttributeError: " ++ a)

/-- `ResourceList.get_queryset` (views.py lines 87-91):

    [resource for resource in queryset
     if (not resource.hidden) or
     has_perm(self.request.user, 'agreements.view_resource', resource)]

`perm r` stands for `has_perm(user, 'agreements.view_resource', r)`.  The
comprehension evaluates `resource.hidden` by attribute lookup; an
`AttributeError` escapes the view. -/
def ResourceList.get_queryset (perm : Resource → Bool) :
    List Resource → Except String (List Resource)
  | [] => .ok []
  | r :: rest => do
    let hv ← r.getattr "hidden"
    let keep := !(pyTruthy hv) || perm r
    let rest' ← ResourceList.get_queryset perm rest
    if keep then .ok (r :: rest') else .ok rest'

/-! ## Theorems -/

/-- C6: for every Agreement, `Agreement.valid()` returns true if and only if
the agreement's `hidden` flag is false, the current time is at or after
`start`, and either `end` is null or the current time is at or before
`end`. -/
theorem C6_agreement_valid_iff (t : Int) (a : Agreement) :
    Agreement.valid t a = true ↔
      (a.hidden = false ∧ a.start ≤ t ∧
        (a.end_ = none ∨ ∃ e, a.end_ = some e ∧ t ≤ e)) := by
  cases a with
  | mk id resource created start end_ hidden =>
    cases hidden <;> rcases end_ with _ | e <;>
      simp [Agreement.valid]

/-- `oldestCode` returns `none` exactly on the empty list. -/
theorem oldestCode_eq_none_iff (l : List LicenseCode) :
    oldestCode l = none ↔ l = [] := by
  cases l with
  | nil => simp [oldestCode]
  | cons a rest =>
    simp only [oldestCode]
    cases oldestCode rest with
    | none => simp
    | some b => by_cases h : b.added < a.added <;> simp [h]

/-- `oldestCode` returns a member of the list whose `added` timestamp is
minimal. -/
theorem oldestCode_spec {l : List LicenseCode} {c : LicenseCode}
    (h : oldestCode l = some c) : c ∈ l ∧ ∀ b ∈ l, c.added ≤ b.added := by
  induction l generalizing c with
  | nil => exact absurd h (by simp [oldestCode])
  | cons a rest ih =>
    rw [oldestCode] at h
    cases hr : oldestCode rest with
    | none =>
      rw [hr] at h
      simp only [Option.some.injEq] at h
      subst h
      have hrest : rest = [] := (oldestCode_eq_none_iff rest).1 hr
      subst hrest
      exact ⟨by simp, by simp⟩
    | some b =>
      rw [hr] at h
      obtain ⟨hbmem, hbmin⟩ := ih hr
      by_cases hlt : b.added < a.added
      · simp only [if_pos hlt, Option.some.injEq] at h
        subst h
        refine ⟨List.mem_cons_of_mem _ hbmem, ?_⟩
        intro x hx
        rcases List.mem_cons.mp hx with hx | hx
        · subst hx; exact le_of_lt hlt
        · exact hbmin x hx
      · simp only [if_neg hlt, Option.some.injEq] at h
        subst h
        refine ⟨List.mem_cons_self _ _, ?_⟩
        intro x hx
        rcases List.mem_cons.mp hx with hx | hx
        · subst hx; exact le_refl _
        · exact le_trans (le_of_not_lt hlt) (hbmin x hx)

/-- What the `order_by('added').first()` query returns: a member of the code
table that is unassigned, belongs to the resource, and is oldest among the
unassigned codes of the resource. -/
theorem selectOldestUnassigned_spec {codes : List LicenseCode} {resId : Nat}
    {c : LicenseCode} (h : selectOldestUnassigned codes resId = some c) :
    c ∈ codes ∧ c.signature = none ∧ c.resource = resId ∧
      ∀ b ∈ codes, b.signature = none → b.resource = resId → c.added ≤ b.added := by
  obtain ⟨hmem, hmin⟩ := oldestCode_spec h
  rw [List.mem_filter] at hmem
  obtain ⟨hmem, hcond⟩ := hmem
  simp only [Bool.and_eq_true, Option.isNone_iff_eq_none, beq_iff_eq] at hcond
  refine ⟨hmem, hcond.1, hcond.2, ?_⟩
  intro b hb hbsig hbres
  exact hmin b (List.mem_filter.mpr ⟨hb, by simp [hbsig, hbres]⟩)

/-- The query returns `none` exactly when the resource has no unassigned
code. -/
theorem selectOldestUnassigned_eq_none_iff (codes : List LicenseCode)
    (resId : Nat) :
    selectOldestUnassigned codes resId = none ↔
      ∀ c ∈ codes, ¬(c.signature = none ∧ c.resource = resId) := by
  rw [selectOldestUnassigned, oldestCode_eq_none_iff, List.filter_eq_nil_iff]
  constructor
  · intro h c hc hcond
    exact h c hc (by simp [hcond.1, hcond.2])
  · intro h c hc hcond
    simp only [Bool.and_eq_true, Option.isNone_iff_eq_none, beq_iff_eq] at hcond
    exact h c hc ⟨hcond.1, hcond.2⟩

/-- The row written by the UPDATE is present afterwards, with the new
signature attached. -/
theorem assignCode_mem_updated {codes : List LicenseCode} {c : LicenseCode}
    (hc : c ∈ codes) (sigId : Nat) :
    { c with signature := some sigId } ∈ assignCode codes c.id sigId :=
  List.mem_map.mpr ⟨c, hc, by simp⟩

/-- Rows whose primary key differs from the written one are untouched by the
UPDATE. -/
theorem assignCode_mem_other {codes : List LicenseCode} {b : LicenseCode}
    {codeId : Nat} (hb : b ∈ codes) (hne : b.id ≠ codeId) (sigId : Nat) :
    b ∈ assignCode codes codeId sigId :=
  List.mem_map.mpr ⟨b, hb, by simp [hne]⟩

/-- C10: at a fixed evaluation time, an agreement is kept by the queryset
filter `AgreementQuerySet.valid()` exactly when it belongs to the queryset and
the instance method `Agreement.valid()` returns true on it: the set-level and
per-object validity predicates agree. -/
theorem C10_queryset_valid_iff_instance_valid (t : Int) (qs : List Agreement)
    (a : Agreement) :
    a ∈ AgreementQuerySet.valid t qs ↔ (a ∈ qs ∧ Agreement.valid t a = true) := by
  simp only [AgreementQuerySet.valid, List.mem_filter, and_assoc]
  cases a with
  | mk id resource created start end_ hidden =>
    cases hidden <;> rcases end_ with _ | e <;>
      simp [Agreement.valid]

/-- C1 fails on the code: `signature.save()` (views.py line 556) runs before
`transaction.atomic()` (line 557), so when the code-claiming block aborts the
Signature row persists anyway.  Concretely: an empty database, user 7 signing
agreement 1 (resource 1) with the claim step aborting, ends with the
Signature row present even though the transaction rolled back. -/
theorem C1_counterexample :
    (AgreementRead.form_valid ⟨[], []⟩ 1 1 7 10 true).2 = SignOutcome.claimAborted ∧
    (AgreementRead.form_valid ⟨[], []⟩ 1 1 7 10 true).1.signatures = [⟨10, 1, 7⟩] ∧
    (AgreementRead.form_valid ⟨[], []⟩ 1 1 7 10 true).1.signatures ≠ [] := by
  decide

/-- C1 (amended): the Signature row is persisted *before* the atomic block;
the transaction covers only the lock-and-claim of the license code.  Hence
when the code-claiming step aborts, the new Signature row still persists and
the code table is rolled back to its pre-transaction state. -/
theorem C1_amended_signature_persists_when_claim_aborts
    (db : SignDB) (agreementId resourceId userId newSigId : Nat)
    (hnosig : hasSignature db agreementId userId = false) :
    AgreementRead.form_valid db agreementId resourceId userId newSigId true
      = (⟨db.signatures ++ [⟨newSigId, agreementId, userId⟩], db.codes⟩,
         SignOutcome.claimAborted) := by
  simp [AgreementRead.form_valid, hnosig]

/-- Witness for C1 (amended) at a concrete input. -/
theorem C1_amended_witness :
    AgreementRead.form_valid ⟨[], [⟨2, 1, "g", 3, none⟩]⟩ 1 1 7 10 true
      = (⟨[⟨10, 1, 7⟩], [⟨2, 1, "g", 3, none⟩]⟩, SignOutcome.claimAborted) :=
  C1_amended_signature_persists_when_claim_aborts
    ⟨[], [⟨2, 1, "g", 3, none⟩]⟩ 1 1 7 10 (by decide)

/-- C2: signing an agreement whose resource still has unassigned license
codes attaches exactly the oldest such code (minimal `added` among the
unassigned codes of the resource) to the new Signature; with no unassigned
code left, the Signature is still created and the code table is untouched. -/
theorem C2_signing_attaches_oldest_unassigned_code
    (db : SignDB) (agreementId resourceId userId newSigId : Nat)
    (hnosig : hasSignature db agreementId userId = false) :
    ((∃ c ∈ db.codes, c.signature = none ∧ c.resource = resourceId) →
      ∃ c ∈ db.codes,
        c.signature = none ∧ c.resource = resourceId ∧
        (∀ b ∈ db.codes, b.signature = none → b.resource = resourceId →
          c.added ≤ b.added) ∧
        AgreementRead.form_valid db agreementId resourceId userId newSigId false
          = (⟨db.signatures ++ [⟨newSigId, agreementId, userId⟩],
              assignCode db.codes c.id newSigId⟩,
             SignOutcome.signed (some c.id))) ∧
    ((∀ c ∈ db.codes, ¬(c.signature = none ∧ c.resource = resourceId)) →
      AgreementRead.form_valid db agreementId resourceId userId newSigId false
        = (⟨db.signatures ++ [⟨newSigId, agreementId, userId⟩], db.codes⟩,
           SignOutcome.signed none)) := by
  constructor
  · rintro ⟨c0, hc0, hsig0, hres0⟩
    rcases hsel : selectOldestUnassigned db.codes resourceId with _ | c
    · exact absurd ⟨hsig0, hres0⟩
        ((selectOldestUnassigned_eq_none_iff db.codes resourceId).1 hsel c0 hc0)
    · obtain ⟨hmem, hsig, hres, hmin⟩ := selectOldestUnassigned_spec hsel
      refine ⟨c, hmem, hsig, hres, hmin, ?_⟩
      simp [AgreementRead.form_valid, hnosig, hsel]
  · intro hnone
    have hsel : selectOldestUnassigned db.codes resourceId = none :=
      (selectOldestUnassigned_eq_none_iff db.codes resourceId).2 hnone
    simp [AgreementRead.form_valid, hnosig, hsel]

/-- Witness for C2 at concrete inputs: one database exercising the
attach-oldest branch, one exercising the no-codes-left branch. -/
theorem C2_witness :
    (∃ c ∈ ([⟨3, 1, "j", 4, none⟩, ⟨2, 1, "g", 3, none⟩] : List LicenseCode),
      c.signature = none ∧ c.resource = 1 ∧
      (∀ b ∈ ([⟨3, 1, "j", 4, none⟩, ⟨2, 1, "g", 3, none⟩] : List LicenseCode),
        b.signature = none → b.resource = 1 → c.added ≤ b.added) ∧
      AgreementRead.form_valid ⟨[], [⟨3, 1, "j", 4, none⟩, ⟨2, 1, "g", 3, none⟩]⟩ 1 1 7 10 false
        = (⟨[⟨10, 1, 7⟩],
            assignCode [⟨3, 1, "j", 4, none⟩, ⟨2, 1, "g", 3, none⟩] c.id 10⟩,
           SignOutcome.signed (some c.id))) ∧
    (AgreementRead.form_valid ⟨[], []⟩ 1 1 7 10 false
      = (⟨[⟨10, 1, 7⟩], []⟩, SignOutcome.signed none)) :=
  ⟨(C2_signing_attaches_oldest_unassigned_code
      ⟨[], [⟨3, 1, "j", 4, none⟩, ⟨2, 1, "g", 3, none⟩]⟩ 1 1 7 10 (by decide)).1
      (by decide),
   (C2_signing_attaches_oldest_unassigned_code
      ⟨[], []⟩ 1 1 7 10 (by decide)).2 (by decide)⟩

/-- C3: when the user has already signed the agreement, `full_clean` fails
the `(agreement, signatory)` unique check, the view catches the
`ValidationError`, flashes "Agreement already signed." and redirects; the
database is left exactly as it was — in particular no second Signature row
appears.  This holds whatever the fate of the (never reached) code-claiming
transaction. -/
theorem C3_resign_caught_and_database_unchanged
    (db : SignDB) (agreementId resourceId userId newSigId : Nat)
    (claimStepAborts : Bool)
    (hsigned : hasSignature db agreementId userId = true) :
    AgreementRead.form_valid db agreementId resourceId userId newSigId claimStepAborts
      = (db, SignOutcome.alreadySigned) := by
  simp [AgreementRead.form_valid, hsigned]

/-- Witness for C3 at a concrete input: user 7 already signed agreement 1. -/
theorem C3_witness :
    AgreementRead.form_valid ⟨[⟨5, 1, 7⟩], [⟨2, 1, "g", 3, none⟩]⟩ 1 1 7 10 false
      = (⟨[⟨5, 1, 7⟩], [⟨2, 1, "g", 3, none⟩]⟩, SignOutcome.alreadySigned) :=
  C3_resign_caught_and_database_unchanged
    ⟨[⟨5, 1, 7⟩], [⟨2, 1, "g", 3, none⟩]⟩ 1 1 7 10 false (by decide)

/-- C9: a claimed license code stays with its Signature.  A code row whose
`signature` field is set is never selected by the code-claiming query (which
filters on `signature=None`) and never deleted by the bulk-replace view
(which also filters on `signature__isnull=True`), so the exact row — same
signature attached — survives both operations.  Primary keys are unique,
hence the `Nodup` hypothesis on ids. -/
theorem C9_claimed_code_stays_with_signature
    (db : SignDB) (c : LicenseCode) (s : Nat)
    (hc : c ∈ db.codes) (hs : c.signature = some s)
    (hnodup : (db.codes.map LicenseCode.id).Nodup) :
    (∀ agreementId resourceId userId newSigId claimStepAborts,
      c ∈ (AgreementRead.form_valid db agreementId resourceId userId newSigId
            claimStepAborts).1.codes) ∧
    (∀ resourceId submitted,
      c ∈ (ResourceLicenseCodeUpdate.form_valid db resourceId submitted).1.codes) := by
  constructor
  · intro agreementId resourceId userId newSigId claimStepAborts
    rw [AgreementRead.form_valid]
    by_cases hsigned : hasSignature db agreementId userId
    · simpa [hsigned] using hc
    · simp only [hsigned, if_false, Bool.false_eq_true]
      cases claimStepAborts with
      | true => simpa using hc
      | false =>
        simp only [if_false, Bool.false_eq_true]
        rcases hsel : selectOldestUnassigned db.codes resourceId with _ | chosen
        · simpa [hsel] using hc
        · obtain ⟨hmem, hsig, -, -⟩ := selectOldestUnassigned_spec hsel
          simp only [hsel]
          have hne : c.id ≠ chosen.id := by
            intro heq
            have : c = chosen :=
              List.inj_on_of_nodup_map hnodup hc hmem heq
            rw [this, hsig] at hs
            exact Option.noConfusion hs
          exact assignCode_mem_other hc hne newSigId
  · intro resourceId submitted
    rw [ResourceLicenseCodeUpdate.form_valid]
    refine List.mem_filter.mpr ⟨hc, ?_⟩
    simp [codeToDelete, hs]

/-- Witness for C9 at a concrete input: code 1 is claimed by signature 9 and
survives a signing by user 7 and a bulk replacement that deletes every
unassigned code. -/
theorem C9_witness :
    (⟨1, 1, "a", 5, some 9⟩ : LicenseCode)
        ∈ (AgreementRead.form_valid ⟨[], [⟨1, 1, "a", 5, some 9⟩, ⟨2, 1, "g", 3, none⟩]⟩
            1 1 7 10 false).1.codes ∧
    (⟨1, 1, "a", 5, some 9⟩ : LicenseCode)
        ∈ (ResourceLicenseCodeUpdate.form_valid
            ⟨[], [⟨1, 1, "a", 5, some 9⟩, ⟨2, 1, "g", 3, none⟩]⟩ 1 []).1.codes :=
  ⟨(C9_claimed_code_stays_with_signature
      ⟨[], [⟨1, 1, "a", 5, some 9⟩, ⟨2, 1, "g", 3, none⟩]⟩ ⟨1, 1, "a", 5, some 9⟩ 9
      (by decide) rfl (by decide)).1 1 1 7 10 false,
   (C9_claimed_code_stays_with_signature
      ⟨[], [⟨1, 1, "a", 5, some 9⟩, ⟨2, 1, "g", 3, none⟩]⟩ ⟨1, 1, "a", 5, some 9⟩ 9
      (by decide) rfl (by decide)).2 1 []⟩

/-- C7 is right about the intent but the code is broken: the `Resource` model
(models.py lines 25-58) defines no `hidden` field, yet
`ResourceList.get_queryset` (views.py lines 87-91) evaluates `resource.hidden`
for every listed resource.  On any database holding at least one resource the
comprehension raises `AttributeError` instead of filtering hidden resources —
here evaluated at a single-resource table with a permission check that always
denies. -/
theorem C7_code_bug_resource_list_raises_attribute_error :
    ResourceList.get_queryset (fun _ => false) [⟨1, "Test", "test", "", 51, ""⟩]
      = Except.error "AttributeError: hidden" := rfl

/-- C8 fails on the code: `warn_low_number_unassigned_licensecodes` first
returns early when `resource.low_codes_email` is blank (signals.py lines
23-24), a condition the claim omits.  Concretely: a resource with blank
`low_codes_email`, threshold 51 and exactly 10 unassigned codes — the count
is at most the threshold and a multiple of 10, yet no email is sent. -/
theorem C8_counterexample :
    (([⟨0, 1, "c0", 0, none⟩, ⟨1, 1, "c1", 0, none⟩, ⟨2, 1, "c2", 0, none⟩,
       ⟨3, 1, "c3", 0, none⟩, ⟨4, 1, "c4", 0, none⟩, ⟨5, 1, "c5", 0, none⟩,
       ⟨6, 1, "c6", 0, none⟩, ⟨7, 1, "c7", 0, none⟩, ⟨8, 1, "c8", 0, none⟩,
       ⟨9, 1, "c9", 0, none⟩] : List LicenseCode).filter
        (fun c => c.resource == 1 && c.signature.isNone)).length ≤ 51 ∧
    (([⟨0, 1, "c0", 0, none⟩, ⟨1, 1, "c1", 0, none⟩, ⟨2, 1, "c2", 0, none⟩,
       ⟨3, 1, "c3", 0, none⟩, ⟨4, 1, "c4", 0, none⟩, ⟨5, 1, "c5", 0, none⟩,
       ⟨6, 1, "c6", 0, none⟩, ⟨7, 1, "c7", 0, none⟩, ⟨8, 1, "c8", 0, none⟩,
       ⟨9, 1, "c9", 0, none⟩] : List LicenseCode).filter
        (fun c => c.resource == 1 && c.signature.isNone)).length % 10 = 0 ∧
    warn_low_number_unassigned_licensecodes
      [⟨0, 1, "c0", 0, none⟩, ⟨1, 1, "c1", 0, none⟩, ⟨2, 1, "c2", 0, none⟩,
       ⟨3, 1, "c3", 0, none⟩, ⟨4, 1, "c4", 0, none⟩, ⟨5, 1, "c5", 0, none⟩,
       ⟨6, 1, "c6", 0, none⟩, ⟨7, 1, "c7", 0, none⟩, ⟨8, 1, "c8", 0, none⟩,
       ⟨9, 1, "c9", 0, none⟩] ⟨1, "R", "res", "", 51, ""⟩ = false := by
  decide

/-- C8 (amended): on a LicenseCode save, the handler mails the warning (one
`send_mail` call) exactly when the resource's `low_codes_email` is non-blank,
the count of unassigned codes of the resource is at most
`low_codes_threshold`, and that count is an exact multiple of 10; in every
other case no email is sent. -/
theorem C8_amended_warn_email_iff (codes : List LicenseCode) (r : Resource) :
    warn_low_number_unassigned_licensecodes codes r = true ↔
      (r.low_codes_email ≠ "" ∧
       (codes.filter (fun c => c.resource == r.id && c.signature.isNone)).length
         ≤ r.low_codes_threshold ∧
       (codes.filter (fun c => c.resource == r.id && c.signature.isNone)).length
         % 10 = 0) := by
  rw [warn_low_number_unassigned_licensecodes]
  by_cases he : r.low_codes_email = ""
  · simp [he]
  · simp only [beq_iff_eq, he, if_false, ne_eq, not_false_iff, true_and]
    split_ifs with h1 h2
    · simp; omega
    · simp only [Bool.false_eq_true, false_iff]
      intro hcontra
      simp only [bne_iff_ne, ne_eq, Decidable.not_not] at h2
      exact h2 hcontra.2
    · simp only [true_iff]
      refine ⟨by omega, ?_⟩
      simpa using h2

/-- C4 fails on the code: the access view checks the signature only against
the most recently created valid agreement (views.py lines 232-242), not
against "some currently-valid Agreement".  Concretely: resource 1 has two
currently valid agreements — agreement 1 (created at 1) and agreement 2
(created at 2) — and user 7 signed agreement 1; the requested file exists,
yet the view redirects the user to sign agreement 2 instead of serving. -/
theorem C4_counterexample :
    signedSomeValidAgreement 10
        [⟨1, 1, 1, 0, none, false⟩, ⟨2, 1, 2, 0, none, false⟩] [⟨1, 1, 7⟩] 1 7
      = true ∧
    ResourceAccess.get 10 [⟨1, 1, 1, 0, none, false⟩, ⟨2, 1, 2, 0, none, false⟩]
        [⟨1, 1, 7⟩] (fun _ => some true) ⟨1, "R", "res", "", 51, ""⟩ 7 "file.txt"
      = ⟨AccessResponse.redirectToAgreement 2, false⟩ := by
  decide

/-- C4 (amended): the access decision is made against the single most
recently created currently-valid agreement of the resource.  A user who has
not signed *that* agreement is redirected to sign it (even if they signed an
older valid one); a user who has signed it, whose resource-scoped path is
free of `..` and not absolute, and whose path names an existing file, is
served that file (and the download event recorder runs). -/
theorem C4_amended_access_decided_by_newest_valid_agreement
    (t : Int) (agreements : List Agreement) (signatures : List Signature)
    (fs : String → Option Bool) (resource : Resource) (userId : Nat)
    (accesspath : String) (ag : Agreement)
    (hsel : selectAssociatedAgreement t agreements resource.id = some ag) :
    (signatures.any (fun s => s.agreement == ag.id && s.signatory == userId) = false →
      ResourceAccess.get t agreements signatures fs resource userId accesspath
        = ⟨AccessResponse.redirectToAgreement ag.id, false⟩) ∧
    (signatures.any (fun s => s.agreement == ag.id && s.signatory == userId) = true →
      hasDotDot (osPathJoin resource.slug accesspath) = false →
      startsWithSlash (osPathJoin resource.slug accesspath) = false →
      fs ("/media/" ++ osPathJoin resource.slug accesspath) = some true →
      ResourceAccess.get t agreements signatures fs resource userId accesspath
        = ⟨AccessResponse.serveFile ("/media/" ++ osPathJoin resource.slug accesspath),
           true⟩) := by
  constructor
  · intro hunsigned
    simp [ResourceAccess.get, hsel, hunsigned]
  · intro hsigned hdot hrel hfs
    simp [ResourceAccess.get, hsel, hsigned, hdot, default_storage_path, hrel, hfs]

/-- Witness for C4 (amended) at concrete inputs: the unsigned-redirect branch
and the signed-serve branch. -/
theorem C4_amended_witness :
    (ResourceAccess.get 10 [⟨1, 1, 1, 0, none, false⟩, ⟨2, 1, 2, 0, none, false⟩]
        [⟨1, 1, 7⟩] (fun _ => some true) ⟨1, "R", "res", "", 51, ""⟩ 7 "file.txt"
      = ⟨AccessResponse.redirectToAgreement 2, false⟩) ∧
    (ResourceAccess.get 10 [⟨1, 1, 1, 0, none, false⟩, ⟨2, 1, 2, 0, none, false⟩]
        [⟨1, 2, 7⟩] (fun _ => some true) ⟨1, "R", "res", "", 51, ""⟩ 7 "file.txt"
      = ⟨AccessResponse.serveFile "/media/res/file.txt", true⟩) :=
  ⟨(C4_amended_access_decided_by_newest_valid_agreement 10
      [⟨1, 1, 1, 0, none, false⟩, ⟨2, 1, 2, 0, none, false⟩] [⟨1, 1, 7⟩]
      (fun _ => some true) ⟨1, "R", "res", "", 51, ""⟩ 7 "file.txt"
      ⟨2, 1, 2, 0, none, false⟩ (by decide)).1 (by decide),
   (C4_amended_access_decided_by_newest_valid_agreement 10
      [⟨1, 1, 1, 0, none, false⟩, ⟨2, 1, 2, 0, none, false⟩] [⟨1, 2, 7⟩]
      (fun _ => some true) ⟨1, "R", "res", "", 51, ""⟩ 7 "file.txt"
      ⟨2, 1, 2, 0, none, false⟩ (by decide)).2 (by decide) (by decide) (by decide) rfl⟩

/-- C5 fails as stated: the `..` check (views.py line 253) sits *after* the
signature check, so an unsigned user requesting a traversal path is
redirected to sign, not denied.  Concretely: resource 1 has one valid
agreement (id 2) which user 7 has not signed; the request for `../secret`
yields a redirect, which is not a permission-denied response. -/
theorem C5_counterexample :
    hasDotDot (osPathJoin "res" "../secret") = true ∧
    ResourceAccess.get 10 [⟨2, 1, 2, 0, none, false⟩] [⟨1, 1, 7⟩]
        (fun _ => some true) ⟨1, "R", "res", "", 51, ""⟩ 7 "../secret"
      = ⟨AccessResponse.redirectToAgreement 2, false⟩ ∧
    AccessResponse.redirectToAgreement 2 ≠ AccessResponse.permissionDenied := by
  decide

/-- C5 (amended): for every request whose resource-scoped path contains
`..`, no file is ever served and the download-event recorder never runs; and
when the request passes the earlier gates (a valid agreement exists and the
user signed the selected one), the view raises permission-denied.  Unsigned
users are redirected to sign instead. -/
theorem C5_amended_dotdot_never_served
    (t : Int) (agreements : List Agreement) (signatures : List Signature)
    (fs : String → Option Bool) (resource : Resource) (userId : Nat)
    (accesspath : String)
    (hdot : hasDotDot (osPathJoin resource.slug accesspath) = true) :
    ((ResourceAccess.get t agreements signatures fs resource userId accesspath).eventRecorded
        = false) ∧
    (∀ p, (ResourceAccess.get t agreements signatures fs resource userId
        accesspath).response ≠ AccessResponse.serveFile p) ∧
    (∀ ag, selectAssociatedAgreement t agreements resource.id = some ag →
      signatures.any (fun s => s.agreement == ag.id && s.signatory == userId) = true →
      (ResourceAccess.get t agreements signatures fs resource userId
          accesspath).response = AccessResponse.permissionDenied) := by
  rcases hsel : selectAssociatedAgreement t agreements resource.id with _ | ag0
  · simp [ResourceAccess.get, hsel]
  · by_cases hsigned :
      signatures.any (fun s => s.agreement == ag0.id && s.signatory == userId) = true
    · simp [ResourceAccess.get, hsel, hsigned, hdot]
    · simp only [Bool.not_eq_true] at hsigned
      refine ⟨?_, ?_, ?_⟩
      · simp [ResourceAccess.get, hsel, hsigned]
      · intro p
        simp [ResourceAccess.get, hsel, hsigned]
      · intro ag hag hany
        obtain rfl : ag0 = ag := Option.some.inj hag
        rw [hany] at hsigned
        exact absurd hsigned (by simp)

/-- Witness for C5 (amended) at a concrete input: a signed user requesting a
traversal path is denied, with no event recorded. -/
theorem C5_amended_witness :
    (ResourceAccess.get 10 [⟨2, 1, 2, 0, none, false⟩] [⟨1, 2, 7⟩]
        (fun _ => some true) ⟨1, "R", "res", "", 51, ""⟩ 7 "../secret").eventRecorded
      = false ∧
    (ResourceAccess.get 10 [⟨2, 1, 2, 0, none, false⟩] [⟨1, 2, 7⟩]
        (fun _ => some true) ⟨1, "R", "res", "", 51, ""⟩ 7 "../secret").response
      = AccessResponse.permissionDenied :=
  have h := C5_amended_dotdot_never_served 10 [⟨2, 1, 2, 0, none, false⟩] [⟨1, 2, 7⟩]
    (fun _ => some true) ⟨1, "R", "res", "", 51, ""⟩ 7 "../secret" (by decide)
  ⟨h.1, h.2.2 ⟨2, 1, 2, 0, none, false⟩ (by decide) (by decide)⟩

end Mellyn
